import Mathlib

/-!
Verification of the thr2pxl GPU particle pipeline against its source.

The development shallowly embeds the parts of the code the claims are about:

* the CPU-side texel packer (`FlowFieldManager.init`,
  `FlowFieldManager.#generateTexelDataFromVertex`,
  `FlowFieldManager.#generateTexelUvFromVertex`) over `ℚ`;
* the GPGPU compute shader (`src/js/shader/gpgpu/fragment.glsl`) over `ℝ`,
  with the 4D simplex noise abstracted as a function parameter (the GLSL
  source of `calcSimplexNoise4d` is included by the shader but is not part
  of the repository snapshot);
* the pointer-repulsion displacement of the particle vertex shader over `ℝ`;
* the control-flow of `GpGpuManager.create`, `Model.load`, `Model.update`,
  `Model.dispose`, `Runner.update` and `Thr2pxl.dispose` as explicit state
  passing, with thrown exceptions modelled by `Except.error`.
-/

set_option autoImplicit false

namespace Thr2pxl

/-! ### Texel packer (`flow-field-manager.ts`)

`FlowFieldManager.init` computes `size = Math.ceil(Math.sqrt(vertices))`
and fills two flat `Float32Array`s, one loop iteration per vertex.
Float contents are modelled as rationals.
-/

/-- Embedding of `Math.ceil(Math.sqrt(n))` for a natural `n`, written with
`Nat.sqrt` so that it is executable; `texSize_eq_ceil_sqrt` below proves it
equal to the mathematical `⌈Real.sqrt n⌉₊`. -/
def texSize (n : ℕ) : ℕ :=
  if n = 0 then 0 else Nat.sqrt (n - 1) + 1

/-- JavaScript number truncation toward zero (`Math.trunc`), used by the
semantics of the JS `%` operator. -/
def jsTrunc (q : ℚ) : ℤ :=
  if q < 0 then ⌈q⌉ else ⌊q⌋

/-- JavaScript remainder operator `a % b` on numbers:
`a - b * trunc(a / b)`. -/
def jsMod (a b : ℚ) : ℚ :=
  a - b * (jsTrunc (a / b) : ℚ)

/-- One iteration of `FlowFieldManager.#generateTexelDataFromVertex`:
the four floats written for vertex `i`, reading the flat position array at
`3*i`, `3*i+1`, `3*i+2` and the per-vertex random seed. -/
def texelBlock (pos rand : ℕ → ℚ) (i : ℕ) : List ℚ :=
  [pos (3 * i), pos (3 * i + 1), pos (3 * i + 2), rand i]

/-- One iteration of `FlowFieldManager.#generateTexelUvFromVertex`:
`u = ((i + 0.5) % size) / size` and
`v = (Math.floor(i / size) + 0.5) / size`. -/
def uvBlock (size : ℕ) (i : ℕ) : List ℚ :=
  [jsMod ((i : ℚ) + 1 / 2) (size : ℚ) / (size : ℚ),
   ((⌊(i : ℚ) / (size : ℚ)⌋ : ℚ) + 1 / 2) / (size : ℚ)]

/-- The `for (let i = 0; i < vertices; i++)` fill loop: each iteration
appends the block written for vertex `i`. -/
def packLoop (f : ℕ → List ℚ) : ℕ → List ℚ
  | 0 => []
  | n + 1 => packLoop f n ++ f n

/-- The `texelData` buffer built by `FlowFieldManager.init` for `n`
vertices. -/
def generateTexelData (pos rand : ℕ → ℚ) (n : ℕ) : List ℚ :=
  packLoop (texelBlock pos rand) n

/-- The `texelUv` buffer built by `FlowFieldManager.init` for `n`
vertices. -/
def generateTexelUv (n : ℕ) : List ℚ :=
  packLoop (uvBlock (texSize n)) n

/-- Nearest-texel raster cell selected when sampling a `size × size`
texture at coordinates `(u, v)`: column `⌊u·size⌋`, row `⌊v·size⌋`,
flattened row-major. -/
def texelFetchIndex (size : ℕ) (u v : ℚ) : ℕ :=
  (⌊v * (size : ℚ)⌋).toNat * size + (⌊u * (size : ℚ)⌋).toNat

/-- Reading the three position channels of the texel that a `(u, v)` lookup
selects in the packed data buffer. -/
def textureLookupPos (data : List ℚ) (size : ℕ) (u v : ℚ) : List ℚ :=
  [data.getD (4 * texelFetchIndex size u v + 0) 0,
   data.getD (4 * texelFetchIndex size u v + 1) 0,
   data.getD (4 * texelFetchIndex size u v + 2) 0]

/-- The texel-packer contract of claim C2, for `n` vertices with flat
position array `pos` and per-vertex random seeds `rand`: data-buffer length
and contents, UV-table length and entries, texture-lookup round trip,
`texSize = ceil (sqrt n)`, and the concrete UV table for `n = 4`. -/
def TexelPackerClaim (n : ℕ) (pos rand : ℕ → ℚ) : Prop :=
  (generateTexelData pos rand n).length = 4 * n ∧
  (∀ i, i < n →
    (generateTexelData pos rand n).getD (4 * i) 0 = pos (3 * i) ∧
    (generateTexelData pos rand n).getD (4 * i + 1) 0 = pos (3 * i + 1) ∧
    (generateTexelData pos rand n).getD (4 * i + 2) 0 = pos (3 * i + 2) ∧
    (generateTexelData pos rand n).getD (4 * i + 3) 0 = rand i) ∧
  (generateTexelUv n).length = 2 * n ∧
  (∀ i, i < n →
    (generateTexelUv n).getD (2 * i) 0 =
      (((i % texSize n : ℕ) : ℚ) + 1 / 2) / (texSize n : ℚ) ∧
    (generateTexelUv n).getD (2 * i + 1) 0 =
      (((i / texSize n : ℕ) : ℚ) + 1 / 2) / (texSize n : ℚ)) ∧
  (∀ i, i < n →
    textureLookupPos (generateTexelData pos rand n) (texSize n)
      ((generateTexelUv n).getD (2 * i) 0)
      ((generateTexelUv n).getD (2 * i + 1) 0) =
      [pos (3 * i), pos (3 * i + 1), pos (3 * i + 2)]) ∧
  texSize n = ⌈Real.sqrt n⌉₊ ∧
  generateTexelUv 4 =
    [1 / 4, 1 / 4, 3 / 4, 1 / 4, 1 / 4, 3 / 4, 3 / 4, 3 / 4]

/-- Concrete flat position array used by witnesses: vertex `i` sits at
`(3i, 3i+1, 3i+2)`. -/
def posEx : ℕ → ℚ := fun j => (j : ℚ)

/-- Concrete per-vertex random seeds used by witnesses. -/
def randEx : ℕ → ℚ := fun _ => 1 / 2

/-! ### GPGPU renderer creation (`gpgpu-manager.ts`) -/

/-- Side of the square data texture chosen by
`GpGpuManager.#createGpGpuRenderer`:
`Math.ceil(Math.sqrt(texelData.length / TEXEL_GROUP_SIZE))` with
`TEXEL_GROUP_SIZE = 4`. -/
def gpGpuRendererSize (texelDataLen : ℕ) : ℕ :=
  texSize (texelDataLen / 4)

/-- Control flow of `GpGpuManager.create`: `gpGpu.init()` returns a status
value that is an error string on shader compile/link failure and `null`
on success; `create` converts a non-null status into a thrown
`new Error(error)` (modelled by `Except.error`) and otherwise returns the
renderer/variable pair (abstracted to `Except.ok ()`). -/
def gpGpuCreate (initStatus : Option String) : Except String Unit :=
  match initStatus with
  | some err => Except.error err
  | none => Except.ok ()

/-! ### Model initialization (`main/runner/model.ts`) -/

/-- Geometry attributes produced by `Model.#initPoints` and
`Model.#initPointAttributes`. -/
structure PointsGeometry where
  drawRange : ℕ
  aPointSizeLen : ℕ
  aUvPointLen : ℕ
  aColorCount : ℕ
deriving DecidableEq

/-- Data-relevant pipeline of `Model.load` after the mesh arrives: it reads
the `position` and `color` attributes, runs `FlowFieldManager.init` on the
position attribute, and builds the point geometry — the draw range, the
random point-size attribute and the UV attribute are all sized from
`position.count` alone while the color attribute is attached as-is; there
is no validation of the attribute counts anywhere on this path. -/
def modelLoad (pos rand : ℕ → ℚ) (posCount colorCount : ℕ) :
    Except String (List ℚ × List ℚ × PointsGeometry) :=
  let texelData := generateTexelData pos rand posCount
  let texelUv := generateTexelUv posCount
  Except.ok (texelData, texelUv,
    { drawRange := posCount
      aPointSizeLen := posCount
      aUvPointLen := texelUv.length
      aColorCount := colorCount })

/-! ### GLSL shader math over `ℝ`

The compute fragment shader (`gpgpu/fragment.glsl`) and the particle
vertex shader are embedded over the reals. The shader's
`calcSimplexNoise4d` is included from a utility file that is not part of
the repository snapshot, so the noise is a function parameter
`noise : Vec3 → ℝ → ℝ` standing for
`calcSimplexNoise4d(vec4(v, w))`.
-/

noncomputable section ShaderMath

/-- A GLSL `vec3`. -/
structure Vec3 where
  x : ℝ
  y : ℝ
  z : ℝ

instance : Add Vec3 := ⟨fun a b => ⟨a.x + b.x, a.y + b.y, a.z + b.z⟩⟩

instance : SMul ℝ Vec3 := ⟨fun c v => ⟨c * v.x, c * v.y, c * v.z⟩⟩

/-- GLSL `v + c` for a scalar `c`, added to every component. -/
def Vec3.addScalar (v : Vec3) (c : ℝ) : Vec3 :=
  ⟨v.x + c, v.y + c, v.z + c⟩

/-- GLSL `length(v)`. -/
def Vec3.len (v : Vec3) : ℝ :=
  Real.sqrt (v.x * v.x + v.y * v.y + v.z * v.z)

/-- GLSL `normalize(v) = v / length(v)`; with real-division conventions a
zero vector maps to zero. -/
def Vec3.normalize (v : Vec3) : Vec3 :=
  ⟨v.x / v.len, v.y / v.len, v.z / v.len⟩

/-- GLSL `clamp(x, lo, hi) = min(max(x, lo), hi)`. -/
def clampR (x lo hi : ℝ) : ℝ := min (max x lo) hi

/-- GLSL `smoothstep(e0, e1, x)`. -/
def smoothstepR (e0 e1 x : ℝ) : ℝ :=
  let t := clampR ((x - e0) / (e1 - e0)) 0 1
  t * t * (3 - 2 * t)

/-- GLSL `mix(a, b, t) = a·(1−t) + b·t`. -/
def mixR (a b t : ℝ) : ℝ := a * (1 - t) + b * t

/-- Uniforms of the GPGPU fragment shader (set by
`FlowFieldManager.init`). -/
structure FlowFieldUniforms where
  frequency : ℝ
  strength : ℝ
  ratio : ℝ
  lifeDecay : ℝ

/-- One particle texel: `position.xyz` and `position.a` (the life
phase). -/
structure Particle where
  pos : Vec3
  life : ℝ

/-- The body of `main` in `gpgpu/fragment.glsl`, for the texel holding
particle `p` whose base-texture texel is `basePosition`:
reset to the base position with life `0` when `life ≥ 1`, otherwise drift
along the normalized three-sample noise direction scaled by the
smoothstep-remapped noise strength, and advance the life phase. -/
def gpgpuMain (noise : Vec3 → ℝ → ℝ) (u : FlowFieldUniforms)
    (basePosition : Vec3) (uTime uDeltaTime : ℝ) (p : Particle) :
    Particle :=
  if 1 ≤ p.life then
    { pos := basePosition, life := 0 }
  else
    let strength := smoothstepR (1 - 2 * u.ratio) 1
      (noise basePosition (uTime * u.frequency))
    let flowField := Vec3.normalize
      ⟨noise (p.pos.addScalar 0) (uTime * u.frequency),
       noise (p.pos.addScalar 1) (uTime * u.frequency),
       noise (p.pos.addScalar 2) (uTime * u.frequency)⟩
    { pos := p.pos + (strength * u.strength * uDeltaTime) • flowField,
      life := p.life + u.lifeDecay * uDeltaTime }

/-- Constant-zero instantiation of the abstract noise, used by witnesses. -/
def noiseZero : Vec3 → ℝ → ℝ := fun _ _ => 0

/-- Constant-one instantiation of the abstract noise, used by the C5
counterexample. -/
def noiseOne : Vec3 → ℝ → ℝ := fun _ _ => 1

/-- The default flow-field uniforms of `FlowFieldManager`:
frequency `0.1`, strength `3`, ratio `0.25`, life decay `0.01`. -/
def defaultFlowUniforms : FlowFieldUniforms :=
  { frequency := 0.1, strength := 3, ratio := 0.25, lifeDecay := 0.01 }

/-- The flow-field uniforms of the C5 scenario: defaults except
`lifeDecay = 1.0`. -/
def scenarioUniforms : FlowFieldUniforms :=
  { frequency := 0.1, strength := 3, ratio := 0.25, lifeDecay := 1 }

/-- The four scenario vertices `(0,0,0), (1,0,0), (0,1,0), (1,1,0)` of
claim C5. -/
def scenarioBase (i : Fin 4) : Vec3 :=
  match i with
  | 0 => ⟨0, 0, 0⟩
  | 1 => ⟨1, 0, 0⟩
  | 2 => ⟨0, 1, 0⟩
  | 3 => ⟨1, 1, 0⟩

/-- The two-branch characterization of one compute step asserted by claim
C1, stated with the drift and decay formulas written out. -/
def ComputeStepClaim (noise : Vec3 → ℝ → ℝ) (u : FlowFieldUniforms)
    (base : Vec3) (t dt : ℝ) (p : Particle) : Prop :=
  (1 ≤ p.life →
    gpgpuMain noise u base t dt p = { pos := base, life := 0 }) ∧
  (p.life < 1 →
    gpgpuMain noise u base t dt p =
      { pos := p.pos +
          (smoothstepR (1 - 2 * u.ratio) 1 (noise base (t * u.frequency)) *
            u.strength * dt) •
          Vec3.normalize
            ⟨noise (p.pos.addScalar 0) (t * u.frequency),
             noise (p.pos.addScalar 1) (t * u.frequency),
             noise (p.pos.addScalar 2) (t * u.frequency)⟩,
        life := p.life + u.lifeDecay * dt })

/-- The life-cycle facts asserted by claim C3 for one compute step: life
is non-decreasing on non-reset steps, a reset step outputs exactly
`(basePosition, 0)`, and the step following a reset is never itself a
reset (one reset transition per crossing of `1.0`). -/
def LifeCycleClaim (noise : Vec3 → ℝ → ℝ) (u : FlowFieldUniforms)
    (base : Vec3) (t dt : ℝ) (p : Particle) : Prop :=
  (p.life < 1 → p.life ≤ (gpgpuMain noise u base t dt p).life) ∧
  (1 ≤ p.life →
    gpgpuMain noise u base t dt p = { pos := base, life := 0 }) ∧
  (1 ≤ p.life → (gpgpuMain noise u base t dt p).life < 1)

end ShaderMath

noncomputable section PointerMath

/-- Uniforms of the pointer-repulsion shader chunk
(`position_vertex.glsl` / the particle vertex shader). -/
structure PointerUniforms where
  strength : ℝ
  minRad : ℝ
  maxRad : ℝ
  pulseStrength : ℝ
  pulseFrequency : ℝ

/-- The `displacementStrength` computed by the vertex shader at a pointer
distance `dist`: the distance is clamped to `[minRad, maxRad]` by
`max`/`min` and fed through
`mix(1/minRad, 0, clampedDistance/maxRad)`. -/
def displacementStrength (u : PointerUniforms) (dist : ℝ) : ℝ :=
  mixR (1 / u.minRad) 0 (min u.maxRad (max u.minRad dist) / u.maxRad)

/-- The displacement the vertex shader adds to the model position:
`dir·strength·dispStrength + dir·sin(t·pulseFreq)·pulseStrength·dispStrength`. -/
def pointerDisplacement (u : PointerUniforms) (uTime : ℝ) (dir : Vec3)
    (dist : ℝ) : Vec3 :=
  (u.strength * displacementStrength u dist) • dir +
    (Real.sin (uTime * u.pulseFrequency) * u.pulseStrength *
      displacementStrength u dist) • dir

/-- The falloff facts asserted by claim C4: the strength at `minRad` is
the maximum attained over all distances, every distance `≥ maxRad` gives
the minimum (zero, the floor of the strength), the strength is strictly
decreasing on `[minRad, maxRad]`, and at exactly `maxRad` the non-pulse
repulsion term of the displacement is the zero vector. -/
def PointerFalloffClaim (u : PointerUniforms) : Prop :=
  displacementStrength u u.minRad =
    (1 / u.minRad) * (1 - u.minRad / u.maxRad) ∧
  (∀ d : ℝ, displacementStrength u d ≤ displacementStrength u u.minRad) ∧
  (∀ d : ℝ, u.maxRad ≤ d → displacementStrength u d = 0) ∧
  (∀ d : ℝ, 0 ≤ displacementStrength u d) ∧
  (∀ d₁ d₂ : ℝ, u.minRad ≤ d₁ → d₁ < d₂ → d₂ ≤ u.maxRad →
    displacementStrength u d₂ < displacementStrength u d₁) ∧
  (∀ dir : Vec3,
    (u.strength * displacementStrength u u.maxRad) • dir =
      (⟨0, 0, 0⟩ : Vec3)) ∧
  (∀ uTime : ℝ, ∀ dir : Vec3,
    pointerDisplacement u uTime dir u.maxRad = (⟨0, 0, 0⟩ : Vec3))

/-- The pointer uniform defaults of `Runner`: strength `0.3`,
`minRad = 0.5`, `maxRad = 2`, pulse strength `0.2`, pulse frequency `1`. -/
def defaultPointerUniforms : PointerUniforms :=
  { strength := 0.3, minRad := 0.5, maxRad := 2, pulseStrength := 0.2,
    pulseFrequency := 1 }

end PointerMath

/-! ### Per-frame driver and disposal (`runner.ts` / `app.ts`,
`main/runner/model.ts`, `thr2pxl.ts`)

Uniform values are modelled over `ℚ`; the returned `Bool` of an update
records whether a GPGPU compute pass was submitted
(`flowFieldManager.update` → `gpGpu.compute()`) during the call.
-/

/-- Render-material state of the loaded points object: whether the
shader-customization pass (`onBeforeCompile`) has attached the `uTime` and
pointer uniforms, the uniform values themselves, whether
`uPointPositionTexture` has been bound to the current render target, and
the disposal flags of the geometry and material resources. -/
structure PointsState where
  hasUTime : Bool
  uTime : ℚ
  uPointer : ℚ × ℚ × ℚ
  uPointTextureBound : Bool
  geometryDisposed : Bool
  materialDisposed : Bool
deriving DecidableEq

/-- GPGPU resources owned by the flow-field manager. -/
structure FlowFieldState where
  gpuDisposed : Bool
deriving DecidableEq

/-- The `Model` fields that `update` and `dispose` touch: `points` stays
`null` until the mesh has loaded and the point geometry is built. -/
structure ModelState where
  points : Option PointsState
  flowField : Option FlowFieldState
deriving DecidableEq

/-- `Model.update`: guarded by `if (this.points && this.#flowFieldManager)`;
when both references are set it submits a compute pass and binds the
current render target texture to `uPointPositionTexture`. -/
def modelUpdate (m : ModelState) : ModelState × Bool :=
  match m.points, m.flowField with
  | some pts, some ff =>
      ({ points := some { pts with uPointTextureBound := true },
         flowField := some ff }, true)
  | _, _ => (m, false)

/-- `Model.dispose`: disposes the flow-field GPGPU renderer and the points
geometry and material; the `points` and `flowFieldManager` references
themselves are left in place (they are never set to `null`). -/
def modelDispose (m : ModelState) : ModelState :=
  { points := m.points.map (fun p =>
      { p with geometryDisposed := true, materialDisposed := true }),
    flowField := m.flowField.map (fun _ => { gpuDisposed := true }) }

/-- The sentinel pointer position written by `#disablePointer`. -/
def sentinel : ℚ × ℚ × ℚ := (-99999, -99999, -99999)

/-- `Runner.update(deltaTime, elapsedTime)` (identical to `App.update` in
`core/app.ts`): guarded by
`if (this.model.points && this.model.points.material.uniforms.uTime)`;
inside the guard it calls `Model.update`, writes `uTime`, and writes the
pointer uniform from the first intersection or the sentinel. The inner
`match` on the updated `points` mirrors that `Model.update` never clears
the reference. -/
def runnerUpdate (m : ModelState) (intersections : List (ℚ × ℚ × ℚ))
    (elapsedTime : ℚ) : ModelState × Bool :=
  match m.points with
  | none => (m, false)
  | some pts =>
      if pts.hasUTime then
        let step := modelUpdate m
        match step.1.points with
        | some pts' =>
            ({ points := some { pts' with
                  uTime := elapsedTime,
                  uPointer := intersections.headD sentinel },
               flowField := step.1.flowField }, step.2)
        | none => step
      else (m, false)

/-- The `Thr2pxl` fields relevant to disposal: whether an animation-frame
request is pending and the model state reached through the app/runner. -/
structure Thr2pxlState where
  rafPending : Bool
  model : ModelState
deriving DecidableEq

/-- `Thr2pxl.dispose`: `cancelAnimationFrame(this.#requestAnimationId)`,
then disposal of the app (which disposes the model); the timer, renderer,
loader and debug managers are outside this model. -/
def thr2pxlDispose (s : Thr2pxlState) : Thr2pxlState :=
  { rafPending := false, model := modelDispose s.model }

/-- A loaded model whose shader customization has run: `points` present
with `uTime` attached, flow-field GPGPU alive. -/
def loadedModelEx : ModelState :=
  { points := some
      { hasUTime := true, uTime := 0, uPointer := (0, 0, 0),
        uPointTextureBound := false, geometryDisposed := false,
        materialDisposed := false },
    flowField := some { gpuDisposed := false } }

/-! ### Theorems -/

theorem packLoop_length (f : ℕ → List ℚ) (c : ℕ)
    (hc : ∀ i, (f i).length = c) (n : ℕ) :
    (packLoop f n).length = c * n := by
  induction n with
  | zero => simp [packLoop]
  | succ n ih =>
      simp [packLoop, ih, hc, Nat.mul_succ]

theorem packLoop_getD (f : ℕ → List ℚ) (c : ℕ)
    (hc : ∀ i, (f i).length = c) (n i k : ℕ) (hi : i < n) (hk : k < c)
    (d : ℚ) :
    (packLoop f n).getD (c * i + k) d = (f i).getD k d := by
  induction n with
  | zero => omega
  | succ n ih =>
      rcases Nat.lt_succ_iff_lt_or_eq.mp hi with h | h
      · have hlen : c * i + k < (packLoop f n).length := by
          rw [packLoop_length f c hc]
          calc c * i + k < c * i + c := by omega
            _ = c * (i + 1) := by ring
            _ ≤ c * n := Nat.mul_le_mul_left c h
        rw [packLoop, List.getD_append _ _ _ _ hlen, ih h]
      · subst h
        have hlen : (packLoop f i).length ≤ c * i + k := by
          rw [packLoop_length f c hc]; omega
        rw [packLoop, List.getD_append_right _ _ _ _ hlen,
          packLoop_length f c hc]
        congr 1
        omega

theorem texSize_pos (n : ℕ) (hn : 1 ≤ n) : 0 < texSize n := by
  rw [texSize, if_neg (by omega)]
  omega

theorem texSize_sq (n : ℕ) (hn : 1 ≤ n) :
    (texSize n - 1) ^ 2 < n ∧ n ≤ texSize n ^ 2 := by
  have h0 : n ≠ 0 := by omega
  rw [texSize, if_neg h0]
  constructor
  · have := Nat.sqrt_le' (n - 1)
    simpa using by omega
  · have := Nat.lt_succ_sqrt' (n - 1)
    have h : n - 1 < (Nat.sqrt (n - 1) + 1) ^ 2 := by
      simpa [Nat.succ_eq_add_one] using this
    omega

/-- The executable `texSize` agrees with the mathematical
`Math.ceil(Math.sqrt(n))` of `FlowFieldManager.init`. -/
theorem texSize_eq_ceil_sqrt (n : ℕ) : texSize n = ⌈Real.sqrt n⌉₊ := by
  rcases Nat.eq_zero_or_pos n with h0 | h1
  · subst h0
    simp [texSize]
  · have hs : texSize n ≠ 0 := by
      rw [texSize, if_neg (by omega)]; omega
    symm
    rw [Nat.ceil_eq_iff hs]
    obtain ⟨hlt, hle⟩ := texSize_sq n h1
    constructor
    · have hcast : ((texSize n - 1 : ℕ) : ℝ) ^ 2 < (n : ℝ) := by
        exact_mod_cast hlt
      have := Real.sqrt_lt_sqrt (by positivity) hcast
      rwa [Real.sqrt_sq (by positivity)] at this
    · rw [Real.sqrt_le_left (by positivity)]
      exact_mod_cast hle

theorem floor_nat_div_nat (i S : ℕ) (hS : 0 < S) :
    ⌊(i : ℚ) / (S : ℚ)⌋ = (i / S : ℕ) := by
  have hSQ : (0 : ℚ) < S := by exact_mod_cast hS
  have hmod := Nat.div_add_mod i S
  have hr : i % S < S := Nat.mod_lt i hS
  set q := i / S with hq
  set r := i % S with hr2
  have hiq : (i : ℚ) = S * q + r := by exact_mod_cast hmod.symm
  rw [Int.floor_eq_iff]
  rw [hiq]
  constructor
  · rw [le_div_iff₀ hSQ]
    push_cast
    nlinarith [hSQ, (by exact_mod_cast Nat.zero_le r : (0:ℚ) ≤ r)]
  · rw [div_lt_iff₀ hSQ]
    push_cast
    have : (r : ℚ) < S := by exact_mod_cast hr
    nlinarith

/-- The JS expression `((i + 0.5) % size) / size` of
`#generateTexelUvFromVertex` equals the texel-centered column coordinate
`((i mod size) + 0.5) / size`. -/
theorem jsMod_nat_half (i S : ℕ) (hS : 0 < S) :
    jsMod ((i : ℚ) + 1 / 2) (S : ℚ) = ((i % S : ℕ) : ℚ) + 1 / 2 := by
  have hSQ : (0 : ℚ) < S := by exact_mod_cast hS
  have hmod := Nat.div_add_mod i S
  have hrlt : i % S < S := Nat.mod_lt i hS
  set q := i / S
  set r := i % S
  have hiq : (i : ℚ) = S * q + r := by exact_mod_cast hmod.symm
  have hnonneg : ¬ (((i : ℚ) + 1 / 2) / S < 0) := by
    push_neg
    positivity
  have hfloor : ⌊((i : ℚ) + 1 / 2) / S⌋ = (q : ℤ) := by
    rw [Int.floor_eq_iff]
    rw [hiq]
    have hr0 : (0:ℚ) ≤ r := by exact_mod_cast Nat.zero_le r
    have hrS : (r : ℚ) + 1 / 2 < S := by
      have : (r : ℚ) + 1 ≤ S := by exact_mod_cast hrlt
      linarith
    constructor
    · rw [le_div_iff₀ hSQ]; push_cast; nlinarith
    · rw [div_lt_iff₀ hSQ]; push_cast; nlinarith
  rw [jsMod, jsTrunc, if_neg hnonneg, hfloor, hiq]
  push_cast
  ring

theorem uvBlock_eq (S i : ℕ) (hS : 0 < S) :
    uvBlock S i =
      [(((i % S : ℕ) : ℚ) + 1 / 2) / S, (((i / S : ℕ) : ℚ) + 1 / 2) / S] := by
  rw [uvBlock, jsMod_nat_half i S hS, floor_nat_div_nat i S hS]
  norm_cast

theorem floor_nat_add_half (r : ℕ) : ⌊(r : ℚ) + 1 / 2⌋ = (r : ℤ) := by
  rw [Int.floor_eq_iff]
  push_cast
  constructor <;> linarith

/-- Sampling at the texel-centered UV of vertex `i` selects raster cell
`(i mod S, i / S)`, whose flattened index is `i` again. -/
theorem texelFetchIndex_center (S i : ℕ) (hS : 0 < S) :
    texelFetchIndex S ((((i % S : ℕ) : ℚ) + 1 / 2) / S)
      ((((i / S : ℕ) : ℚ) + 1 / 2) / S) = i := by
  have hSQ : (0 : ℚ) < S := by exact_mod_cast hS
  rw [texelFetchIndex]
  rw [div_mul_cancel₀ _ (ne_of_gt hSQ), div_mul_cancel₀ _ (ne_of_gt hSQ)]
  rw [floor_nat_add_half, floor_nat_add_half]
  simp only [Int.toNat_natCast]
  rw [mul_comm]
  exact Nat.div_add_mod i S

theorem texelBlock_length (pos rand : ℕ → ℚ) (i : ℕ) :
    (texelBlock pos rand i).length = 4 := rfl

theorem uvBlock_length (S i : ℕ) : (uvBlock S i).length = 2 := rfl

theorem generateTexelData_getD (pos rand : ℕ → ℚ) (n i k : ℕ)
    (hi : i < n) (hk : k < 4) :
    (generateTexelData pos rand n).getD (4 * i + k) 0 =
      (texelBlock pos rand i).getD k 0 :=
  packLoop_getD _ 4 (texelBlock_length pos rand) n i k hi hk 0

theorem generateTexelUv_getD (n i k : ℕ) (hi : i < n) (hk : k < 2) :
    (generateTexelUv n).getD (2 * i + k) 0 =
      (uvBlock (texSize n) i).getD k 0 :=
  packLoop_getD _ 2 (uvBlock_length (texSize n)) n i k hi hk 0

theorem generateTexelUv_entries (n i : ℕ) (hn : 1 ≤ n) (hi : i < n) :
    (generateTexelUv n).getD (2 * i) 0 =
      (((i % texSize n : ℕ) : ℚ) + 1 / 2) / (texSize n : ℚ) ∧
    (generateTexelUv n).getD (2 * i + 1) 0 =
      (((i / texSize n : ℕ) : ℚ) + 1 / 2) / (texSize n : ℚ) := by
  have hS := texSize_pos n hn
  have h0 := generateTexelUv_getD n i 0 hi (by omega)
  have h1 := generateTexelUv_getD n i 1 hi (by omega)
  rw [uvBlock_eq _ _ hS] at h0 h1
  constructor
  · simpa using h0
  · simpa using h1

theorem texSize_four : texSize 4 = 2 := by
  obtain ⟨h1, h2⟩ := texSize_sq 4 (by norm_num)
  have h3 : 1 ≤ texSize 4 := texSize_pos 4 (by norm_num)
  by_contra hne
  rcases Nat.lt_or_ge (texSize 4) 2 with h | h
  · have : texSize 4 ^ 2 ≤ 1 ^ 2 := Nat.pow_le_pow_left (by omega) 2
    omega
  · have h4 : 3 ≤ texSize 4 := by omega
    have : 2 ^ 2 ≤ (texSize 4 - 1) ^ 2 := Nat.pow_le_pow_left (by omega) 2
    omega

theorem generateTexelUv_four :
    generateTexelUv 4 =
      [1 / 4, 1 / 4, 3 / 4, 1 / 4, 1 / 4, 3 / 4, 3 / 4, 3 / 4] := by
  have h : generateTexelUv 4 = packLoop (uvBlock 2) 4 := by
    rw [generateTexelUv, texSize_four]
  rw [h]
  norm_num [packLoop, uvBlock, jsMod, jsTrunc]

/-- C2: for every vertex count `N ≥ 1` the texel packer produces a float
buffer of length `4N` whose `i`-th group is `[x_i, y_i, z_i, r_i]` (the
vertex position and a per-particle random seed), and a UV table of length
`2N` with entry `i` equal to `(((i mod S) + 0.5)/S, (⌊i/S⌋ + 0.5)/S)` for
`S = texSize N = ceil (sqrt N)`; looking the packed texture up at `uv[i]`
recovers `positions[i]`, and for `N = 4` the UV table is exactly
`(0.25,0.25), (0.75,0.25), (0.25,0.75), (0.75,0.75)`. -/
theorem texelPacker_roundtrip (n : ℕ) (pos rand : ℕ → ℚ) (hn : 1 ≤ n) :
    TexelPackerClaim n pos rand := by
  refine ⟨?_, ?_, ?_, ?_, ?_, texSize_eq_ceil_sqrt n, generateTexelUv_four⟩
  · exact packLoop_length _ 4 (texelBlock_length pos rand) n
  · intro i hi
    refine ⟨?_, ?_, ?_, ?_⟩
    · simpa [texelBlock] using
        generateTexelData_getD pos rand n i 0 hi (by omega)
    · simpa [texelBlock] using
        generateTexelData_getD pos rand n i 1 hi (by omega)
    · simpa [texelBlock] using
        generateTexelData_getD pos rand n i 2 hi (by omega)
    · simpa [texelBlock] using
        generateTexelData_getD pos rand n i 3 hi (by omega)
  · exact packLoop_length _ 2 (uvBlock_length _) n
  · exact fun i hi => generateTexelUv_entries n i hn hi
  · intro i hi
    obtain ⟨h0, h1⟩ := generateTexelUv_entries n i hn hi
    rw [h0, h1, textureLookupPos,
      texelFetchIndex_center (texSize n) i (texSize_pos n hn)]
    have g0 := generateTexelData_getD pos rand n i 0 hi (by omega)
    have g1 := generateTexelData_getD pos rand n i 1 hi (by omega)
    have g2 := generateTexelData_getD pos rand n i 2 hi (by omega)
    rw [g0, g1, g2]
    rfl

/-- Witness for C2 at the concrete input `N = 4`. -/
theorem texelPacker_roundtrip_witness :
    1 ≤ 4 ∧ TexelPackerClaim 4 posEx randEx :=
  ⟨by norm_num, texelPacker_roundtrip 4 posEx randEx (by norm_num)⟩

/-- Counterexample to C6: when `gpGpu.init()` reports a shader
compile/link failure, `GpGpuManager.create` does not complete and surface
a status value — it throws, so the caller's construction aborts. -/
theorem gpGpuCreate_failure_cex :
    gpGpuCreate (some "shader compile error") =
      Except.error "shader compile error" ∧
    (gpGpuCreate (some "shader compile error")).isOk = false :=
  ⟨rfl, rfl⟩

/-- C6 amended: `GPUComputationRenderer.init` reports failure synchronously
as a returned status string, but `GpGpuManager.create` re-raises every
non-null status as a thrown `Error`, so initialization failure propagates
to the caller as an exception; only a null status lets construction
complete. -/
theorem gpGpuCreate_throws_on_failure :
    (∀ err : String, gpGpuCreate (some err) = Except.error err) ∧
    gpGpuCreate none = Except.ok () :=
  ⟨fun _ => rfl, rfl⟩

/-- Counterexample to C7: a mesh whose position attribute has 2 vertices
and whose color attribute has 3 completes `Model.load` without any error
condition — no guard check exists. -/
theorem modelLoad_no_guard_cex :
    (2 : ℕ) ≠ 3 ∧ (modelLoad posEx randEx 2 3).isOk = true :=
  ⟨by decide, rfl⟩

/-- C7 amended: initialization performs no explicit guard check at all —
for every input, including mismatched position/color counts and zero-vertex
meshes, `Model.load` succeeds, sizing the draw range, point-size attribute
and texel tables from the position count alone and attaching the color
attribute unchecked. -/
theorem modelLoad_no_guard (pos rand : ℕ → ℚ) (posCount colorCount : ℕ)
    (_hbad : colorCount ≠ posCount ∨ posCount = 0) :
    modelLoad pos rand posCount colorCount =
      Except.ok (generateTexelData pos rand posCount,
        generateTexelUv posCount,
        { drawRange := posCount
          aPointSizeLen := posCount
          aUvPointLen := 2 * posCount
          aColorCount := colorCount }) := by
  rw [modelLoad]
  simp only [generateTexelUv]
  rw [packLoop_length _ 2 (uvBlock_length _) posCount]

/-- Witness for the amended C7 at the mismatched input `(2, 3)`. -/
theorem modelLoad_no_guard_witness :
    ((3 : ℕ) ≠ 2 ∨ (2 : ℕ) = 0) ∧
    modelLoad posEx randEx 2 3 =
      Except.ok (generateTexelData posEx randEx 2, generateTexelUv 2,
        { drawRange := 2
          aPointSizeLen := 2
          aUvPointLen := 4
          aColorCount := 3 }) :=
  ⟨Or.inl (by decide), modelLoad_no_guard posEx randEx 2 3
    (Or.inl (by decide))⟩

/-- Counterexample to C8: at vertex count `N = 0` the GPGPU texture side is
`Math.ceil(Math.sqrt(0)) = 0`, not `1` — the data texture is degenerate
`0×0`, not `1×1`. -/
theorem zeroVertex_texture_cex :
    gpGpuRendererSize (generateTexelData posEx randEx 0).length = 0 ∧
    gpGpuRendererSize (generateTexelData posEx randEx 0).length ≠ 1 ∧
    texSize 0 ≠ 1 :=
  ⟨rfl, by decide, by decide⟩

/-- C8 amended: a vertex count of `N = 0` flows through the texel packer
and GPGPU initialization without any error condition, producing empty
texel/UV buffers and a degenerate `0×0` (not `1×1`) data texture. -/
theorem zeroVertex_degenerate (pos rand : ℕ → ℚ) :
    generateTexelData pos rand 0 = [] ∧
    generateTexelUv 0 = [] ∧
    texSize 0 = 0 ∧
    gpGpuRendererSize (generateTexelData pos rand 0).length = 0 ∧
    (modelLoad pos rand 0 0).isOk = true :=
  ⟨rfl, rfl, rfl,
    by simp [gpGpuRendererSize, generateTexelData, packLoop, texSize], rfl⟩

theorem Vec3.add_def (a b : Vec3) :
    a + b = ⟨a.x + b.x, a.y + b.y, a.z + b.z⟩ := rfl

theorem Vec3.smul_def (c : ℝ) (v : Vec3) :
    c • v = ⟨c * v.x, c * v.y, c * v.z⟩ := rfl

/-- C1: one compute step of `gpgpu/fragment.glsl` is a two-branch state
machine — at `life ≥ 1` it outputs the immutable base position with life
`0` and applies no drift; otherwise it adds
`normalize(flowDir) · strength · uFlowFieldStrength · Δt` to the position,
with `strength = smoothstep(1 − 2·ratio, 1, noise₄(basePosition, t·freq))`
and `flowDir` built from three noise samples offset by `(0,1,2)`, and adds
`lifeDecay · Δt` to the life. Holds for every noise function. -/
theorem gpgpuMain_two_branch (noise : Vec3 → ℝ → ℝ) (u : FlowFieldUniforms)
    (base : Vec3) (t dt : ℝ) (p : Particle) :
    ComputeStepClaim noise u base t dt p := by
  constructor
  · intro h
    rw [gpgpuMain, if_pos h]
  · intro h
    rw [gpgpuMain, if_neg (not_le.mpr h)]

/-- Witness for C1: on a particle with `life = 2` the step resets to the
base position, and on a particle with `life = 0` it applies the drift
formula. -/
theorem gpgpuMain_two_branch_witness :
    (1 : ℝ) ≤ 2 ∧
    gpgpuMain noiseZero defaultFlowUniforms ⟨1, 2, 3⟩ 0 1 ⟨⟨4, 5, 6⟩, 2⟩ =
      { pos := ⟨1, 2, 3⟩, life := 0 } :=
  ⟨by norm_num,
    (gpgpuMain_two_branch noiseZero defaultFlowUniforms ⟨1, 2, 3⟩ 0 1
      ⟨⟨4, 5, 6⟩, 2⟩).1 (by norm_num)⟩

/-- C3: with `lifeDecay ≥ 0` and `Δt ≥ 0`, the life value never decreases
between resets, a reset outputs position `basePosition` and life `0`, and
a reset step is never immediately followed by another reset — exactly one
reset transition per crossing of `1.0`. -/
theorem gpgpuMain_life_cycle (noise : Vec3 → ℝ → ℝ) (u : FlowFieldUniforms)
    (base : Vec3) (t dt : ℝ) (p : Particle)
    (hdecay : 0 ≤ u.lifeDecay) (hdt : 0 ≤ dt) :
    LifeCycleClaim noise u base t dt p := by
  refine ⟨?_, ?_, ?_⟩
  · intro h
    rw [gpgpuMain, if_neg (not_le.mpr h)]
    have := mul_nonneg hdecay hdt
    simp only
    linarith
  · intro h
    rw [gpgpuMain, if_pos h]
  · intro h
    rw [gpgpuMain, if_pos h]
    norm_num

/-- Witness for C3 at the default uniforms with `Δt = 1`. -/
theorem gpgpuMain_life_cycle_witness :
    (0 : ℝ) ≤ defaultFlowUniforms.lifeDecay ∧ (0 : ℝ) ≤ 1 ∧
    LifeCycleClaim noiseZero defaultFlowUniforms ⟨0, 0, 0⟩ 0 1
      ⟨⟨0, 0, 0⟩, 1 / 2⟩ :=
  ⟨by norm_num [defaultFlowUniforms], by norm_num,
    gpgpuMain_life_cycle noiseZero defaultFlowUniforms ⟨0, 0, 0⟩ 0 1
      ⟨⟨0, 0, 0⟩, 1 / 2⟩ (by norm_num [defaultFlowUniforms]) (by norm_num)⟩

/-- Counterexample to C5: with `lifeDecay = 1` and `Δt = 2`, one compute
step on the scenario vertex `(0,0,0)` (seed `0`, noise constantly `1`)
does push the life past `1`, but the resulting position is
`(2√3, 2√3, 2√3)`, not the base position — the else branch drifts the
particle in the same frame that pushes its life past the threshold. -/
theorem scenario_one_step_cex :
    1 ≤ (gpgpuMain noiseOne scenarioUniforms ⟨0, 0, 0⟩ 0 2
      ⟨⟨0, 0, 0⟩, 0⟩).life ∧
    (gpgpuMain noiseOne scenarioUniforms ⟨0, 0, 0⟩ 0 2
      ⟨⟨0, 0, 0⟩, 0⟩).pos ≠ (⟨0, 0, 0⟩ : Vec3) := by
  have hs3 : (0 : ℝ) < Real.sqrt 3 := Real.sqrt_pos.mpr (by norm_num)
  have hbranch : ¬ (1 : ℝ) ≤ 0 := by norm_num
  have hstep : gpgpuMain noiseOne scenarioUniforms ⟨0, 0, 0⟩ 0 2
      ⟨⟨0, 0, 0⟩, 0⟩ =
      { pos := ⟨6 / Real.sqrt 3, 6 / Real.sqrt 3, 6 / Real.sqrt 3⟩,
        life := 2 } := by
    rw [gpgpuMain, if_neg hbranch]
    simp only [noiseOne, scenarioUniforms, smoothstepR, clampR,
      Vec3.normalize, Vec3.len, Vec3.addScalar, Vec3.add_def, Vec3.smul_def]
    norm_num
    all_goals rw [div_eq_mul_inv]
  rw [hstep]
  refine ⟨by norm_num, fun h => ?_⟩
  have hx : (6 : ℝ) / Real.sqrt 3 = 0 := congrArg Vec3.x h
  have : (6 : ℝ) / Real.sqrt 3 ≠ 0 :=
    div_ne_zero (by norm_num) (ne_of_gt hs3)
  exact this hx

/-- C5 amended: for each of the four scenario vertices, with
`lifeDecay = 1` and `Δt = 2` and any seed in `[0, 1)`, the first compute
step pushes the particle's life to `≥ 1` (the reset becomes pending), and
the second compute step then resets: position equals the base position and
life equals `0`. Holds for every noise function. -/
theorem scenario_two_step_reset (noise : Vec3 → ℝ → ℝ)
    (u : FlowFieldUniforms) (hu : u.lifeDecay = 1) (i : Fin 4)
    (seed t t' : ℝ) (h0 : 0 ≤ seed) (h1 : seed < 1) :
    1 ≤ (gpgpuMain noise u (scenarioBase i) t 2
      ⟨scenarioBase i, seed⟩).life ∧
    gpgpuMain noise u (scenarioBase i) t' 2
      (gpgpuMain noise u (scenarioBase i) t 2 ⟨scenarioBase i, seed⟩) =
      { pos := scenarioBase i, life := 0 } := by
  have hlife : (gpgpuMain noise u (scenarioBase i) t 2
      ⟨scenarioBase i, seed⟩).life = seed + u.lifeDecay * 2 := by
    rw [gpgpuMain, if_neg (not_le.mpr h1)]
  have hge : 1 ≤ (gpgpuMain noise u (scenarioBase i) t 2
      ⟨scenarioBase i, seed⟩).life := by
    rw [hlife, hu]
    linarith
  exact ⟨hge, by rw [gpgpuMain, if_pos hge]⟩

/-- Witness for the amended C5 at vertex `(1,0,0)` with seed `1/2`. -/
theorem scenario_two_step_reset_witness :
    scenarioUniforms.lifeDecay = 1 ∧ (0 : ℝ) ≤ 1 / 2 ∧ (1 / 2 : ℝ) < 1 ∧
    (1 ≤ (gpgpuMain noiseOne scenarioUniforms (scenarioBase 1) 0 2
      ⟨scenarioBase 1, 1 / 2⟩).life ∧
    gpgpuMain noiseOne scenarioUniforms (scenarioBase 1) 5 2
      (gpgpuMain noiseOne scenarioUniforms (scenarioBase 1) 0 2
        ⟨scenarioBase 1, 1 / 2⟩) =
      { pos := scenarioBase 1, life := 0 }) :=
  ⟨rfl, by norm_num, by norm_num,
    scenario_two_step_reset noiseOne scenarioUniforms rfl 1 (1 / 2) 0 5
      (by norm_num) (by norm_num)⟩

theorem displacementStrength_eq (u : PointerUniforms) (d : ℝ) :
    displacementStrength u d =
      (1 / u.minRad) * (1 - min u.maxRad (max u.minRad d) / u.maxRad) := by
  rw [displacementStrength, mixR]
  ring

/-- C4: for `0 < minRad < maxRad` the pointer falloff takes its maximum
at `distance = minRad`, its minimum (the floor, zero) at every distance
`≥ maxRad`, is strictly decreasing in between, and at exactly `maxRad`
the repulsion term beyond the pulsing term is the zero displacement. -/
theorem pointer_falloff (u : PointerUniforms) (hmin : 0 < u.minRad)
    (hlt : u.minRad < u.maxRad) : PointerFalloffClaim u := by
  have hmax : 0 < u.maxRad := lt_trans hmin hlt
  have hinv : 0 < 1 / u.minRad := by positivity
  have hzero : displacementStrength u u.maxRad = 0 := by
    rw [displacementStrength_eq, max_eq_right (le_of_lt hlt), min_self,
      div_self (ne_of_gt hmax)]
    ring
  refine ⟨?_, ?_, ?_, ?_, ?_, ?_, ?_⟩
  · rw [displacementStrength_eq, max_self, min_eq_right (le_of_lt hlt)]
  · intro d
    rw [displacementStrength_eq, displacementStrength_eq, max_self,
      min_eq_right (le_of_lt hlt)]
    have hge : u.minRad ≤ min u.maxRad (max u.minRad d) :=
      le_min (le_of_lt hlt) (le_max_left _ _)
    have key : u.minRad / u.maxRad ≤
        min u.maxRad (max u.minRad d) / u.maxRad := by
      gcongr
    exact mul_le_mul_of_nonneg_left (by linarith) (le_of_lt hinv)
  · intro d hd
    rw [displacementStrength_eq,
      max_eq_right (le_of_lt (lt_of_lt_of_le hlt hd)),
      min_eq_left hd, div_self (ne_of_gt hmax)]
    ring
  · intro d
    rw [displacementStrength_eq]
    have hle : min u.maxRad (max u.minRad d) ≤ u.maxRad := min_le_left _ _
    have h1 : min u.maxRad (max u.minRad d) / u.maxRad ≤ 1 := by
      rw [div_le_one hmax]
      exact hle
    have h2 : 0 ≤ 1 - min u.maxRad (max u.minRad d) / u.maxRad := by
      linarith
    positivity
  · intro d₁ d₂ h₁ h₁₂ h₂
    rw [displacementStrength_eq, displacementStrength_eq]
    have e₁ : min u.maxRad (max u.minRad d₁) = d₁ := by
      rw [max_eq_right h₁, min_eq_right (le_of_lt (lt_of_lt_of_le h₁₂ h₂))]
    have e₂ : min u.maxRad (max u.minRad d₂) = d₂ := by
      rw [max_eq_right (le_of_lt (lt_of_le_of_lt h₁ h₁₂)), min_eq_right h₂]
    rw [e₁, e₂]
    have hdiv : d₁ / u.maxRad < d₂ / u.maxRad := by
      gcongr
    exact mul_lt_mul_of_pos_left (by linarith) hinv
  · intro dir
    rw [hzero, mul_zero, Vec3.smul_def]
    norm_num
  · intro uTime dir
    rw [pointerDisplacement, hzero, mul_zero, mul_zero, Vec3.smul_def]
    rw [Vec3.add_def]
    norm_num

/-- Witness for C4 at the default pointer uniforms
(`minRad = 0.5 < maxRad = 2`). -/
theorem pointer_falloff_witness :
    0 < defaultPointerUniforms.minRad ∧
    defaultPointerUniforms.minRad < defaultPointerUniforms.maxRad ∧
    PointerFalloffClaim defaultPointerUniforms :=
  ⟨by norm_num [defaultPointerUniforms],
   by norm_num [defaultPointerUniforms],
   pointer_falloff defaultPointerUniforms
     (by norm_num [defaultPointerUniforms])
     (by norm_num [defaultPointerUniforms])⟩

/-- Counterexample to C9: after `dispose()`, invoking the update callback
on the loaded model still submits a compute pass — both through
`Model.update` directly and through the `Runner.update` guard — on
flow-field resources whose GPGPU renderer is already disposed, because
`dispose` leaves the `points` reference and the `uTime` uniform in
place. -/
theorem post_dispose_update_cex :
    (modelUpdate (modelDispose loadedModelEx)).2 = true ∧
    (runnerUpdate (modelDispose loadedModelEx) [] 7).2 = true ∧
    (modelDispose loadedModelEx).flowField =
      some { gpuDisposed := true } := by
  refine ⟨rfl, rfl, rfl⟩

/-- C9 amended: `Thr2pxl.dispose` cancels the pending animation-frame
request, so the library's own loop schedules no further frames; but the
update path itself carries no disposal guard — whenever the points object
and flow-field manager references are set, a post-dispose update
invocation still submits a compute pass, now on disposed GPGPU
resources. -/
theorem dispose_cancels_raf_but_update_unguarded :
    (∀ s : Thr2pxlState, (thr2pxlDispose s).rafPending = false) ∧
    (∀ (m : ModelState) (pts : PointsState) (ff : FlowFieldState),
      m.points = some pts → m.flowField = some ff →
      (modelUpdate (modelDispose m)).2 = true ∧
      (modelDispose m).flowField = some { gpuDisposed := true }) := by
  refine ⟨fun _ => rfl, fun m pts ff hp hf => ?_⟩
  rw [modelDispose, hp, hf]
  exact ⟨rfl, rfl⟩

/-- Witness for the amended C9 at the loaded example state. -/
theorem dispose_cancels_raf_but_update_unguarded_witness :
    loadedModelEx.points =
      some { hasUTime := true, uTime := 0, uPointer := (0, 0, 0),
             uPointTextureBound := false, geometryDisposed := false,
             materialDisposed := false } ∧
    loadedModelEx.flowField = some { gpuDisposed := false } ∧
    ((modelUpdate (modelDispose loadedModelEx)).2 = true ∧
      (modelDispose loadedModelEx).flowField =
        some { gpuDisposed := true }) :=
  ⟨rfl, rfl,
    dispose_cancels_raf_but_update_unguarded.2 loadedModelEx _ _ rfl rfl⟩

/-- C10: a per-frame update arriving before the model has loaded
(`points` still `null`) or before the shader-customization pass has
attached `uTime` leaves the state completely unchanged and submits no
compute pass — `Runner.update` (and the identical `App.update`) is a
total function, so no exception is thrown either. -/
theorem runnerUpdate_before_load (m : ModelState)
    (intersections : List (ℚ × ℚ × ℚ)) (elapsedTime : ℚ)
    (h : m.points = none ∨
      ∃ pts, m.points = some pts ∧ pts.hasUTime = false) :
    runnerUpdate m intersections elapsedTime = (m, false) := by
  rcases h with h | ⟨pts, hp, hu⟩
  · rw [runnerUpdate]
    rw [h]
  · rw [runnerUpdate]
    rw [hp]
    simp [hu]

/-- Witness for C10: an update on the fresh state (no points yet) is a
no-op. -/
theorem runnerUpdate_before_load_witness :
    ((⟨none, none⟩ : ModelState).points = none ∨
      ∃ pts, (⟨none, none⟩ : ModelState).points = some pts ∧
        pts.hasUTime = false) ∧
    runnerUpdate ⟨none, none⟩ [] 3 = (⟨none, none⟩, false) :=
  ⟨Or.inl rfl, runnerUpdate_before_load ⟨none, none⟩ [] 3 (Or.inl rfl)⟩

end Thr2pxl
